import Mathlib

set_option linter.unusedVariables false

set_option allowUnsafeReducibility true

attribute [local semireducible] Rat.add Rat.sub Rat.mul Rat.inv Rat.ofScientific Rat.normalize

/-!
Verification development for the 7MS trading pipeline (src/app.py and
src/agent_app.py).  The pure algorithmic content of the source is embedded
shallowly: prices are modelled as exact rationals, OHLC series as lists of
candles (a candle's pandas timestamp is modelled as a natural number), and
the MT5/JSON plumbing is stripped away, keeping exactly the arithmetic and
the control flow of the detectors, the risk calculator, the order builder
and the approval-edit resolution.
-/

namespace SevenMS

/-- Python's `round(x, ndigits)` rounds half to even.  `bankers_round`
is that rule on an exact rational, returning the chosen integer. -/
def bankers_round (y : ℚ) : ℤ :=
  if y - ⌊y⌋ < 1/2 then ⌊y⌋
  else if 1/2 < y - ⌊y⌋ then ⌊y⌋ + 1
  else if ⌊y⌋ % 2 = 0 then ⌊y⌋ else ⌊y⌋ + 1

/-- `round(x, d)` of the source, on exact rationals. -/
def py_round (d : ℕ) (x : ℚ) : ℚ :=
  (bankers_round (x * 10 ^ d) : ℚ) / 10 ^ d

/-- One OHLC candle (`df.iloc[i]` rows of the source); `time` stands for
the pandas timestamp, `open_price` for the source's `open` column (a Lean
keyword). -/
structure Candle where
  time : ℕ
  open_price : ℚ
  high : ℚ
  low : ℚ
  close : ℚ
deriving DecidableEq, Repr

/-- `df.iloc[i]` access; every use in the embedded code is in bounds, the
default is never read there. -/
def candleAt (df : List Candle) (i : ℕ) : Candle :=
  df.getD i ⟨0, 0, 0, 0, 0⟩

/-- `df.iloc[-1]['close']` of the source. -/
def last_close (df : List Candle) : ℚ :=
  (candleAt df (df.length - 1)).close

/-- Python's `l[-n:]`: the most-recent-`n` suffix of a list. -/
def takeLast (n : ℕ) (l : List α) : List α :=
  l.drop (l.length - n)

/-- `df.iloc[a:b]`: rows `a` to `b-1`. -/
def rowSlice (df : List Candle) (a b : ℕ) : List Candle :=
  (df.drop a).take (b - a)

/-- `series['low'].min()` over a slice (the source only takes it over
non-empty slices, so the `[]` default is never read). -/
def min_low : List Candle → ℚ
  | [] => 0
  | c :: rest => rest.foldl (fun m x => min m x.low) c.low

/-- `series['high'].max()` over a slice. -/
def max_high : List Candle → ℚ
  | [] => 0
  | c :: rest => rest.foldl (fun m x => max m x.high) c.high

/-! ## Order-block detector: `identify_order_blocks` (src/app.py:176-259) -/

/-- The `direction` argument of `identify_order_blocks`. -/
inductive ObDirection
  | bullish
  | bearish
  | both
deriving DecidableEq, Repr

/-- `direction in ["bullish", "both"]`. -/
def wantsBullish : ObDirection → Bool
  | .bullish => true
  | .both => true
  | .bearish => false

/-- `direction in ["bearish", "both"]`. -/
def wantsBearish : ObDirection → Bool
  | .bearish => true
  | .both => true
  | .bullish => false

/-- One entry of the `order_blocks` list built by `identify_order_blocks`.
`ob_type` is the source's `"type"` key. -/
structure OrderBlock where
  ob_type : String
  timeframe : String
  time : ℕ
  zone_low : ℚ
  zone_high : ℚ
  gap_size : ℚ
  strength : String
  current_price_distance : ℚ
deriving DecidableEq, Repr

/-- The bullish branch of the loop body of `identify_order_blocks` at
index `i` (src/app.py:220-235): candle2 closes above candle1's high with a
positive gap, and candle3 returns to tap the zone. -/
def bullishObAt (tf : String) (df : List Candle) (lastClose : ℚ) (i : ℕ) :
    List OrderBlock :=
  let candle1 := candleAt df (i - 2)
  let candle2 := candleAt df (i - 1)
  let candle3 := candleAt df i
  if candle2.close > candle1.high then
    if candle2.open_price - candle1.high > 0 then
      if candle3.low ≤ candle1.high then
        [{ ob_type := "bullish_ob", timeframe := tf, time := candle1.time,
           zone_low := candle1.low, zone_high := candle1.high,
           gap_size := candle2.open_price - candle1.high,
           strength := if tf = "4H" ∨ tf = "D1" then "reversal" else "continuation",
           current_price_distance := lastClose - candle1.high }]
      else []
    else []
  else []

/-- The bearish branch of the loop body of `identify_order_blocks` at
index `i` (src/app.py:237-252).  Note the source computes the distance as
`candle1['low'] - df.iloc[-1]['close']`. -/
def bearishObAt (tf : String) (df : List Candle) (lastClose : ℚ) (i : ℕ) :
    List OrderBlock :=
  let candle1 := candleAt df (i - 2)
  let candle2 := candleAt df (i - 1)
  let candle3 := candleAt df i
  if candle2.close < candle1.low then
    if candle1.low - candle2.open_price > 0 then
      if candle3.high ≥ candle1.low then
        [{ ob_type := "bearish_ob", timeframe := tf, time := candle1.time,
           zone_low := candle1.low, zone_high := candle1.high,
           gap_size := candle1.low - candle2.open_price,
           strength := if tf = "4H" ∨ tf = "D1" then "reversal" else "continuation",
           current_price_distance := candle1.low - lastClose }]
      else []
    else []
  else []

/-- Full loop body at index `i`: the bullish check runs first, then the
bearish one, each guarded by the direction filter. -/
def obAt (tf : String) (dirFilter : ObDirection) (df : List Candle)
    (lastClose : ℚ) (i : ℕ) : List OrderBlock :=
  (if wantsBullish dirFilter then bullishObAt tf df lastClose i else []) ++
  (if wantsBearish dirFilter then bearishObAt tf df lastClose i else [])

/-- The JSON object `identify_order_blocks` returns. -/
structure ObReport where
  timeframe : String
  order_blocks_found : ℕ
  order_blocks : List OrderBlock
deriving DecidableEq, Repr

/-- `identify_order_blocks` (src/app.py:176-259) minus the MT5 fetch: the
loop `for i in range(2, len(df))`, the total count, and the `[-10:]`
truncation of the reported list. -/
def identify_order_blocks (tf : String) (dirFilter : ObDirection)
    (df : List Candle) : ObReport :=
  let obs := (List.range' 2 (df.length - 2)).flatMap
    (obAt tf dirFilter df (last_close df))
  { timeframe := tf, order_blocks_found := obs.length,
    order_blocks := takeLast 10 obs }

/-! ## Liquidity-sweep detector: `detect_liquidity_sweep` (src/app.py:261-360) -/

/-- One entry of the `sweeps` list.  `sweep_type` is the source's `"type"`
key; the `Option` fields are the keys present only for one of the two
conditions (`sweep_low`/`sweep_high`/`close_price` for a wick sweep,
`first_candle_body_ratio`/`second_candle_inverse` for a two-candle
rejection).  `sweep_time` and `confirmation_candle` hold the timestamps of
the sweep candle and of its confirming candle. -/
structure LiquiditySweep where
  sweep_type : String
  condition : String
  sweep_time : ℕ
  swept_level : ℚ
  sweep_low : Option ℚ
  sweep_high : Option ℚ
  close_price : Option ℚ
  first_candle_body_ratio : Option ℚ
  second_candle_inverse : Option ℚ
  confirmation_candle : ℕ
  valid : Bool
deriving DecidableEq, Repr

/-- `body_size / candle_range if candle_range > 0 else 0`
(src/app.py:315-317): a zero-range candle gets body ratio 0, not a
division fault. -/
def body_ratio (c : Candle) : ℚ :=
  if c.high - c.low > 0 then |c.close - c.open_price| / (c.high - c.low) else 0

/-- Loop body of `detect_liquidity_sweep` at index `i` (src/app.py:292-353):
bullish wick sweep, then two-candle rejection, then bearish wick sweep, in
source order.  `recent_lows`/`recent_highs` range over the five candles
`i-5..i-1`. -/
def sweepsAt (df : List Candle) (i : ℕ) : List LiquiditySweep :=
  let current := candleAt df i
  let next1 := candleAt df (i + 1)
  let recent_lows := min_low (rowSlice df (i - 5) i)
  let recent_highs := max_high (rowSlice df (i - 5) i)
  let body_size := |current.close - current.open_price|
  let bullWick :=
    if current.low < recent_lows ∧ current.close > recent_lows then
      if next1.close > recent_lows ∧ next1.low > recent_lows then
        [{ sweep_type := "bullish_liq_sweep", condition := "wick_sweep",
           sweep_time := current.time, swept_level := recent_lows,
           sweep_low := some current.low, sweep_high := none,
           close_price := some current.close, first_candle_body_ratio := none,
           second_candle_inverse := none, confirmation_candle := next1.time,
           valid := true }]
      else []
    else []
  let twoCandle :=
    if current.close < current.open_price ∧ body_ratio current ≤ 3/10 ∧
        current.close < recent_lows then
      if next1.close > next1.open_price ∧ next1.close > recent_lows ∧
          |next1.close - next1.open_price| ≥ body_size * (4/10) then
        [{ sweep_type := "bullish_liq_sweep", condition := "two_candle_rejection",
           sweep_time := current.time, swept_level := recent_lows,
           sweep_low := none, sweep_high := none, close_price := none,
           first_candle_body_ratio := some (body_ratio current),
           second_candle_inverse :=
             some (|next1.close - next1.open_price| / body_size),
           confirmation_candle := next1.time, valid := true }]
      else []
    else []
  let bearWick :=
    if current.high > recent_highs ∧ current.close < recent_highs then
      if next1.close < recent_highs ∧ next1.high < recent_highs then
        [{ sweep_type := "bearish_liq_sweep", condition := "wick_sweep",
           sweep_time := current.time, swept_level := recent_highs,
           sweep_low := none, sweep_high := some current.high,
           close_price := some current.close, first_candle_body_ratio := none,
           second_candle_inverse := none, confirmation_candle := next1.time,
           valid := true }]
      else []
    else []
  bullWick ++ twoCandle ++ bearWick

/-- The JSON object `detect_liquidity_sweep` returns. -/
structure SweepReport where
  sweeps_detected : ℕ
  recent_sweeps : List LiquiditySweep
  current_price : ℚ
deriving DecidableEq, Repr

/-- `detect_liquidity_sweep` (src/app.py:261-360) minus the MT5 fetch: the
loop `for i in range(5, len(df) - 2)`, the total count, and the `[-5:]`
truncation of the reported list. -/
def detect_liquidity_sweep (df : List Candle) : SweepReport :=
  let sweeps := (List.range' 5 (df.length - 2 - 5)).flatMap (sweepsAt df)
  { sweeps_detected := sweeps.length, recent_sweeps := takeLast 5 sweeps,
    current_price := last_close df }

/-! ## Structure shift and POIs: `find_mss_and_poi` (src/app.py:362-467) -/

/-- One entry of the `pois` list; `gap_size` is present only for an FVG. -/
structure Poi where
  poi_type : String
  time : ℕ
  zone_low : ℚ
  zone_high : ℚ
  gap_size : Option ℚ
deriving DecidableEq, Repr

/-- The JSON object `find_mss_and_poi` returns when an MSS is found. -/
structure MssReport where
  mss_level : ℚ
  mss_time : ℕ
  zone_start : ℚ
  zone_end : ℚ
  pois_in_zone : ℕ
  pois : List Poi
  current_price : ℚ
deriving DecidableEq, Repr

/-- `df['low'].idxmin()`: the first index attaining the minimal low. -/
def lowest_index (df : List Candle) : ℕ :=
  df.findIdx (fun c => decide (c.low ≤ min_low df))

/-- The MSS loop of `find_mss_and_poi` (src/app.py:404-414) over the
remaining index list: `recent_high` is the running maximum of the previous
candles' highs; the first candle whose high exceeds it fixes the level
(the running maximum) and the time. -/
def mss_scan (df : List Candle) : List ℕ → ℚ → Option (ℚ × ℕ)
  | [], _ => none
  | i :: rest, recent_high =>
      let current := candleAt df i
      if current.high > recent_high then some (recent_high, current.time)
      else mss_scan df rest (max recent_high current.high)

/-- POI scan body at index `i` (src/app.py:424-453): inside the
`[zone_start, zone_end]` band, a 3-candle FVG check (`i ≥ 2`) followed by
a 1-candle order-block check (`i > 0`). -/
def poiAt (df : List Candle) (zone_start zone_end : ℚ) (i : ℕ) : List Poi :=
  let candle := candleAt df i
  if zone_start ≤ candle.low ∧ candle.low ≤ zone_end then
    (if 2 ≤ i then
      let c1 := candleAt df (i - 2)
      if candle.low - c1.high > 0 then
        [{ poi_type := "FVG", time := candle.time, zone_low := c1.high,
           zone_high := candle.low, gap_size := some (candle.low - c1.high) }]
      else []
    else []) ++
    (if 0 < i then
      let prev := candleAt df (i - 1)
      if candle.close > prev.high then
        [{ poi_type := "Order_Block", time := prev.time, zone_low := prev.low,
           zone_high := prev.high, gap_size := none }]
      else []
    else [])
  else []

/-- The POI list of `find_mss_and_poi`: `for i in range(lowest_idx,
lowest_idx + 50)` with the `i >= len(df) - 1: break` guard. -/
def poi_list (df : List Candle) (lowest_idx : ℕ) (zone_start zone_end : ℚ) :
    List Poi :=
  (List.range' lowest_idx (min (lowest_idx + 50) (df.length - 1) - lowest_idx)).flatMap
    (poiAt df zone_start zone_end)

/-- `find_mss_and_poi` (src/app.py:362-467) minus the MT5 fetch: `none`
models the `"No MSS detected yet"` error return (and the crash a
zero-length frame would cause upstream). -/
def find_mss_and_poi (df : List Candle) : Option MssReport :=
  if df.isEmpty then none
  else
    let lowest_idx := lowest_index df
    let lowest_point := candleAt df lowest_idx
    match mss_scan df
        (List.range' (lowest_idx + 1) (df.length - (lowest_idx + 1)))
        lowest_point.high with
    | none => none
    | some (mss_level, mss_time) =>
        some { mss_level := mss_level, mss_time := mss_time,
               zone_start := lowest_point.low, zone_end := mss_level,
               pois_in_zone :=
                 (poi_list df lowest_idx lowest_point.low mss_level).length,
               pois := takeLast 5 (poi_list df lowest_idx lowest_point.low mss_level),
               current_price := last_close df }

/-! ## Risk calculator: `calculate_entry_sl_tp` (src/app.py:469-565) -/

/-- The `direction` argument (`"buy"`/`"sell"`). -/
inductive TradeDir
  | buy
  | sell
deriving DecidableEq, Repr

/-- The JSON object `calculate_entry_sl_tp` returns.  `risk_reward` is the
source's `"risk_reward_ratio"` key (local variable `risk_reward`). -/
structure TradeParams where
  direction : TradeDir
  entry_price : ℚ
  stop_loss : ℚ
  take_profit : ℚ
  sl_points : ℚ
  tp_points : ℚ
  risk_reward : ℚ
  risk_pips : ℚ
  reward_pips : ℚ
  sl_buffer_used : ℚ
deriving DecidableEq, Repr

/-- `calculate_entry_sl_tp` (src/app.py:469-565) minus the MT5 symbol
lookup: `point` is the instrument's `symbol_info.point`, and
`sl_buffer = sl_buffer_pips * 10 * point` with `sl_buffer_pips = 20`.  The
source performs no validation of the levels: both branches compute and
return unconditionally. -/
def calculate_entry_sl_tp (direction : TradeDir)
    (entry_price poi_level mss_level : ℚ) (use_mss_sl : Bool) (point : ℚ) :
    TradeParams :=
  let sl_buffer := 20 * 10 * point
  let sl :=
    match direction with
    | .buy => (if use_mss_sl then mss_level else poi_level) - sl_buffer
    | .sell => (if use_mss_sl then mss_level else poi_level) + sl_buffer
  let tp :=
    match direction with
    | .buy => entry_price + (entry_price - sl) * 2
    | .sell => entry_price - (sl - entry_price) * 2
  let sl_points := |entry_price - sl| / point
  let tp_points := |tp - entry_price| / point
  let risk_reward := if sl_points > 0 then tp_points / sl_points else 0
  { direction := direction, entry_price := py_round 2 entry_price,
    stop_loss := py_round 2 sl, take_profit := py_round 2 tp,
    sl_points := py_round 1 sl_points, tp_points := py_round 1 tp_points,
    risk_reward := py_round 2 risk_reward,
    risk_pips := py_round 1 (sl_points / 10),
    reward_pips := py_round 1 (tp_points / 10),
    sl_buffer_used := py_round 1 (sl_buffer / point) }

/-! ## Order submission: `send_order` (src/app.py:567-682) and the
approval resolution (src/agent_app.py:625-696, src/app.py:1246-1307) -/

/-- `symbol_info_tick`: the current market quote. -/
structure Tick where
  ask : ℚ
  bid : ℚ
deriving DecidableEq, Repr

/-- The `request` dict `send_order` hands to `mt5.order_send`
(src/app.py:634-647).  `order_type` is the request's `"type"` key. -/
structure OrderRequest where
  symbol : String
  volume : ℚ
  order_type : TradeDir
  price : ℚ
  sl : ℚ
  tp : ℚ
  deviation : ℕ
  magic : ℕ
  comment : String
deriving DecidableEq, Repr

/-- `send_order` (src/app.py:567-650) up to the point where the request is
handed to the sink: the request's price is the current market price
(`price.ask` for a buy, `price.bid` for a sell), per the source comment
"Use current market price, not entry_price"; `entry_price` is accepted but
not placed in the request. -/
def send_order (direction : TradeDir)
    (entry_price sl_price tp_price lot_size : ℚ) (comment : String)
    (tick : Tick) : OrderRequest :=
  let execution_price :=
    match direction with
    | .buy => tick.ask
    | .sell => tick.bid
  { symbol := "XAUUSD", volume := lot_size, order_type := direction,
    price := execution_price, sl := sl_price, tp := tp_price,
    deviation := 20, magic := 7777, comment := comment }

/-- The arguments of the intercepted `send_order` tool call held in a
pending `ApprovalRequest`. -/
structure OrderArgs where
  direction : TradeDir
  entry_price : ℚ
  sl_price : ℚ
  tp_price : ℚ
  lot_size : ℚ
  comment : String
deriving DecidableEq, Repr

/-- The `approve` resolution: the original arguments are forwarded
unchanged (src/agent_app.py:637-638, src/app.py:1252-1253). -/
def resolve_approve (original : OrderArgs) : OrderArgs :=
  original

/-- The `edit` resolution of `handle_approval` (src/agent_app.py:650-666):
the original args are copied and `entry_price`, `sl_price`, `tp_price`
and `lot_size` are overwritten with the values from the approval panel; no
check of the edited values is performed. -/
def resolve_edit (original : OrderArgs)
    (entry_price sl_price tp_price lot_size : ℚ) : OrderArgs :=
  { original with entry_price := entry_price, sl_price := sl_price,
                  tp_price := tp_price, lot_size := lot_size }

/-- Resuming with resolved args runs the intercepted `send_order` with
them (the interrupt wraps `send_order`; on approve/edit the deep agent
executes the tool with the resolved args against the current tick). -/
def submit_order (args : OrderArgs) (tick : Tick) : OrderRequest :=
  send_order args.direction args.entry_price args.sl_price args.tp_price
    args.lot_size args.comment tick

/-! ## Concrete input series used to instantiate and to refute claims -/

/-- Three 4H candles forming one bearish order block (candle2 closes below
candle1's low with a gap, candle3's high taps back); the last close is
99.8 while the zone low is 100. -/
def bearish_distance_series : List Candle :=
  [⟨0, 100.5, 101, 100, 100.7⟩, ⟨1, 99.5, 99.6, 98.9, 99⟩,
   ⟨2, 99.2, 100.5, 99, 99.8⟩]

/-- Three candles whose first is zero-range (open=high=low=close=100) yet
heads a detected bullish order block. -/
def degenerate_ob_series : List Candle :=
  [⟨0, 100, 100, 100, 100⟩, ⟨1, 100.5, 101.2, 100.4, 101⟩,
   ⟨2, 99.5, 100.2, 99, 99.9⟩]

/-- Scenario A of the spec: candle2 closes above candle1's high with gap
0.4, candle3 returns into the zone; one bullish block with zone [99, 101].
All candles have a positive range. -/
def scenario_a_series : List Candle :=
  [⟨0, 100, 101, 99, 100.5⟩, ⟨1, 101.4, 103, 101.2, 102.8⟩,
   ⟨2, 100, 100.4, 99.5, 100⟩]

/-- Two 1M candles whose lowest candle is zero-range at 100: the MSS scan
fires at index 1 with level 100 = zone start. -/
def degenerate_mss_series : List Candle :=
  [⟨0, 100, 100, 100, 100⟩, ⟨1, 100.3, 100.5, 100.2, 100.4⟩]

/-- Two 1M candles whose lowest candle has range 99.9..100.1: the MSS scan
fires at index 1 with level 100.1 above the zone start 99.9. -/
def positive_range_mss_series : List Candle :=
  [⟨0, 100, 100.1, 99.9, 100⟩, ⟨1, 100.2, 100.5, 100, 100.4⟩]

end SevenMS

/-! # Theorems -/

namespace SevenMS

/-! ## General lemmas about the embedded list operations -/

lemma length_takeLast_le (n : ℕ) (l : List α) : (takeLast n l).length ≤ n := by
  simp only [takeLast, List.length_drop]
  omega

lemma length_takeLast_le_length (n : ℕ) (l : List α) :
    (takeLast n l).length ≤ l.length := by
  simp only [takeLast, List.length_drop]
  omega

lemma mem_of_mem_takeLast {n : ℕ} {l : List α} {a : α} (h : a ∈ takeLast n l) :
    a ∈ l :=
  List.mem_of_mem_drop h

lemma candleAt_mem {df : List Candle} {i : ℕ} (h : i < df.length) :
    candleAt df i ∈ df := by
  rw [candleAt, List.getD_eq_getElem df ⟨0, 0, 0, 0, 0⟩ h]
  exact List.getElem_mem h

/-! ## Rounding lemmas -/

lemma bankers_round_sub_le (y : ℚ) : |(bankers_round y : ℚ) - y| ≤ 1 / 2 := by
  have h0 : ((⌊y⌋ : ℤ) : ℚ) ≤ y := Int.floor_le y
  have h1 : y < (⌊y⌋ : ℚ) + 1 := Int.lt_floor_add_one y
  unfold bankers_round
  split_ifs with hf hg hp <;> rw [abs_le] <;> push_cast <;>
    constructor <;> linarith

lemma py_round_sub_le (d : ℕ) (x : ℚ) :
    |py_round d x - x| ≤ 1 / 2 / 10 ^ d := by
  have h := bankers_round_sub_le (x * 10 ^ d)
  have hpow : (0 : ℚ) < 10 ^ d := by positivity
  have hx : py_round d x - x =
      ((bankers_round (x * 10 ^ d) : ℚ) - x * 10 ^ d) / 10 ^ d := by
    rw [py_round]
    field_simp
    ring
  rw [hx, abs_div, abs_of_pos hpow]
  gcongr

lemma py_round_two_sub_le (x : ℚ) : |py_round 2 x - x| ≤ 1 / 200 := by
  have h := py_round_sub_le 2 x
  norm_num at h
  linarith [h]

/-! ## C1: what the submitted order request carries -/

/-- C1 (counterexample).  A resolved-approved request with entry 4190 is
submitted while the market ask is 4191: the request's `price` field is not
the resolved entry price.  The source sets `"price": execution_price`
("Use current market price, not entry_price"). -/
theorem order_price_not_entry_cex :
    (submit_order (resolve_approve ⟨.buy, 4190, 4178, 4214, 1/100, "7MS Strategy"⟩)
        ⟨4191, 4190.5⟩).price ≠ 4190 := by
  decide

/-- C1 (amended).  For every resolved argument set and market tick, the
order request `send_order` builds carries exactly the resolved `sl_price`,
`tp_price` and `lot_size` in its `sl`, `tp` and `volume` fields, but its
`price` field is the current market price — the ask for a buy and the bid
for a sell — not the resolved `entry_price`. -/
theorem order_request_forwards_sl_tp :
    ∀ (args : OrderArgs) (tick : Tick),
      (submit_order args tick).sl = args.sl_price ∧
      (submit_order args tick).tp = args.tp_price ∧
      (submit_order args tick).volume = args.lot_size ∧
      (submit_order args tick).price =
        (match args.direction with
         | .buy => tick.ask
         | .sell => tick.bid) := by
  intro args tick
  cases h : args.direction <;>
    simp [submit_order, send_order, h]

/-! ## C2: the risk calculator performs no reference validation -/

/-- C2 (counterexample).  Wrong-side references are not rejected in
either direction: a buy whose reference 4200 lies above the entry 4190
returns a full `TradeParameters` record with the stop at 4198 above the
entry and the target at 4174 below it, and a sell whose reference 4180
lies below the entry 4190 returns a record with the stop at 4182 below
the entry and the target at 4206 above it. -/
theorem wrong_side_reference_computes_cex :
    calculate_entry_sl_tp .buy 4190 4200 0 false (1/100) =
      { direction := .buy, entry_price := 4190, stop_loss := 4198,
        take_profit := 4174, sl_points := 800, tp_points := 1600,
        risk_reward := 2, risk_pips := 80, reward_pips := 160,
        sl_buffer_used := 200 } ∧
    calculate_entry_sl_tp .sell 4190 4180 0 false (1/100) =
      { direction := .sell, entry_price := 4190, stop_loss := 4182,
        take_profit := 4206, sl_points := 800, tp_points := 1600,
        risk_reward := 2, risk_pips := 80, reward_pips := 160,
        sl_buffer_used := 200 } := by
  constructor <;> decide

/-- C2 (amended).  The risk calculator never fails: for either direction,
when the reference level is on the wrong side of the entry (for a buy, a
stop at least one price unit above entry; for a sell, at least one unit
below), it still returns TradeParameters computed by the unchanged
formulas — for a buy the reported stop lies above the reported entry and
the reported target below it, and for a sell the reported stop lies below
the reported entry and the reported target above it.  No
`InvalidReference` path exists in the source. -/
theorem wrong_side_reference_returns_params :
    ∀ (direction : TradeDir) (entry_price poi_level point : ℚ), 0 < point →
      (match direction with
       | .buy => entry_price + 1 ≤ poi_level - 20 * 10 * point
       | .sell => poi_level + 20 * 10 * point ≤ entry_price - 1) →
      (match direction with
       | .buy =>
         (calculate_entry_sl_tp .buy entry_price poi_level 0 false point).entry_price <
           (calculate_entry_sl_tp .buy entry_price poi_level 0 false point).stop_loss ∧
         (calculate_entry_sl_tp .buy entry_price poi_level 0 false point).take_profit <
           (calculate_entry_sl_tp .buy entry_price poi_level 0 false point).entry_price
       | .sell =>
         (calculate_entry_sl_tp .sell entry_price poi_level 0 false point).stop_loss <
           (calculate_entry_sl_tp .sell entry_price poi_level 0 false point).entry_price ∧
         (calculate_entry_sl_tp .sell entry_price poi_level 0 false point).entry_price <
           (calculate_entry_sl_tp .sell entry_price poi_level 0 false point).take_profit) := by
  intro direction entry_price poi_level point hpt hside
  cases direction
  case buy =>
    have he := py_round_two_sub_le entry_price
    have hs := py_round_two_sub_le (poi_level - 20 * 10 * point)
    have ht := py_round_two_sub_le
      (entry_price + (entry_price - (poi_level - 20 * 10 * point)) * 2)
    rw [abs_le] at he hs ht
    obtain ⟨he1, he2⟩ := he
    obtain ⟨hs1, hs2⟩ := hs
    obtain ⟨ht1, ht2⟩ := ht
    simp only at hside
    simp only [calculate_entry_sl_tp, Bool.false_eq_true, if_false]
    set a := py_round 2 entry_price with ha
    set b := py_round 2 (poi_level - 20 * 10 * point) with hb
    set c := py_round 2 (entry_price + (entry_price - (poi_level - 20 * 10 * point)) * 2) with hc
    constructor <;> linarith
  case sell =>
    have he := py_round_two_sub_le entry_price
    have hs := py_round_two_sub_le (poi_level + 20 * 10 * point)
    have ht := py_round_two_sub_le
      (entry_price - (poi_level + 20 * 10 * point - entry_price) * 2)
    rw [abs_le] at he hs ht
    obtain ⟨he1, he2⟩ := he
    obtain ⟨hs1, hs2⟩ := hs
    obtain ⟨ht1, ht2⟩ := ht
    simp only at hside
    simp only [calculate_entry_sl_tp, Bool.false_eq_true, if_false]
    set a := py_round 2 entry_price with ha
    set b := py_round 2 (poi_level + 20 * 10 * point) with hb
    set c := py_round 2 (entry_price - (poi_level + 20 * 10 * point - entry_price) * 2) with hc
    constructor <;> linarith

/-- C2 (witness for the amended theorem), one instance per direction:
buy entry 4190 with reference 4200, and sell entry 4190 with reference
4180, both at point 0.01. -/
theorem wrong_side_reference_returns_params_witness :
    (0 : ℚ) < 1/100 ∧
    (4190 : ℚ) + 1 ≤ 4200 - 20 * 10 * (1/100) ∧
    (4180 : ℚ) + 20 * 10 * (1/100) ≤ 4190 - 1 ∧
    ((calculate_entry_sl_tp .buy 4190 4200 0 false (1/100)).entry_price <
       (calculate_entry_sl_tp .buy 4190 4200 0 false (1/100)).stop_loss ∧
     (calculate_entry_sl_tp .buy 4190 4200 0 false (1/100)).take_profit <
       (calculate_entry_sl_tp .buy 4190 4200 0 false (1/100)).entry_price) ∧
    ((calculate_entry_sl_tp .sell 4190 4180 0 false (1/100)).stop_loss <
       (calculate_entry_sl_tp .sell 4190 4180 0 false (1/100)).entry_price ∧
     (calculate_entry_sl_tp .sell 4190 4180 0 false (1/100)).entry_price <
       (calculate_entry_sl_tp .sell 4190 4180 0 false (1/100)).take_profit) :=
  ⟨by norm_num, by norm_num, by norm_num,
   wrong_side_reference_returns_params .buy 4190 4200 (1/100) (by norm_num)
     (by show (4190 : ℚ) + 1 ≤ 4200 - 20 * 10 * (1/100); norm_num),
   wrong_side_reference_returns_params .sell 4190 4180 (1/100) (by norm_num)
     (by show (4180 : ℚ) + 20 * 10 * (1/100) ≤ 4190 - 1; norm_num)⟩

/-! ## C3: valid buy inputs give a 2:1 construction -/

/-- C3.  For every valid buy input (positive point, chosen reference minus
buffer strictly below entry): the returned stop loss is the rounding of
the chosen reference level minus the buffer, the returned
`takeProfit − entryPrice` equals `2 × (entryPrice − stopLoss)` within one
price unit (the only slack being the 2-decimal rounding of the three
prices), and the reported risk-reward ratio is exactly 2.  In particular
entry 4190.0, poi_level 4180.0 and a 2.0-price-unit buffer (point 0.01)
yield stop 4178.0, target 4214.0 and ratio 2.0. -/
theorem risk_calc_buy_two_to_one :
    (∀ (entry_price poi_level mss_level : ℚ) (use_mss_sl : Bool) (point : ℚ),
      0 < point →
      (if use_mss_sl then mss_level else poi_level) - 20 * 10 * point < entry_price →
      (calculate_entry_sl_tp .buy entry_price poi_level mss_level use_mss_sl point).stop_loss =
        py_round 2 ((if use_mss_sl then mss_level else poi_level) - 20 * 10 * point) ∧
      |(calculate_entry_sl_tp .buy entry_price poi_level mss_level use_mss_sl point).take_profit -
          (calculate_entry_sl_tp .buy entry_price poi_level mss_level use_mss_sl point).entry_price -
          2 * ((calculate_entry_sl_tp .buy entry_price poi_level mss_level use_mss_sl point).entry_price -
            (calculate_entry_sl_tp .buy entry_price poi_level mss_level use_mss_sl point).stop_loss)| ≤ 1 ∧
      (calculate_entry_sl_tp .buy entry_price poi_level mss_level use_mss_sl point).risk_reward = 2) ∧
    ((calculate_entry_sl_tp .buy 4190 4180 0 false (1/100)).stop_loss = 4178 ∧
     (calculate_entry_sl_tp .buy 4190 4180 0 false (1/100)).take_profit = 4214 ∧
     (calculate_entry_sl_tp .buy 4190 4180 0 false (1/100)).risk_reward = 2) := by
  constructor
  · intro entry_price poi_level mss_level use_mss_sl point hpt hside
    simp only [calculate_entry_sl_tp]
    set s := (if use_mss_sl then mss_level else poi_level) - 20 * 10 * point with hs
    have hrisk : (0 : ℚ) < entry_price - s := by linarith
    have habs1 : |entry_price - s| = entry_price - s := abs_of_pos hrisk
    have habs2 : |entry_price + (entry_price - s) * 2 - entry_price| =
        (entry_price - s) * 2 := by
      rw [abs_of_pos]
      · ring
      · linarith
    refine ⟨?_, ?_, ?_⟩
    · trivial
    · have he := py_round_two_sub_le entry_price
      have hsl := py_round_two_sub_le s
      have htp := py_round_two_sub_le (entry_price + (entry_price - s) * 2)
      rw [abs_le] at he hsl htp
      obtain ⟨he1, he2⟩ := he
      obtain ⟨hs1, hs2⟩ := hsl
      obtain ⟨ht1, ht2⟩ := htp
      set a := py_round 2 entry_price
      set b := py_round 2 s
      set c := py_round 2 (entry_price + (entry_price - s) * 2)
      rw [abs_le]
      constructor <;> linarith
    · have hpos : (0 : ℚ) < |entry_price - s| / point := by
        rw [habs1]
        exact div_pos hrisk hpt
      rw [if_pos hpos, habs1, habs2]
      have hratio : (entry_price - s) * 2 / point / ((entry_price - s) / point) = 2 := by
        field_simp
      rw [hratio]
      decide
  · refine ⟨?_, ?_, ?_⟩ <;> decide

/-! ## C4: edit resolution fully replaces the parameters -/

/-- C4.  Resolving a pending approval with an Edit decision replaces
`entry_price`, `sl_price`, `tp_price` and `lot_size` with the edited
values for every original and every edited value — no re-validation of
the edited risk/reward restricts them — and the forwarded order request
carries the edited stop, target and size.  In particular, Scenario D:
originals (4190, 4178, 4214) edited to (4192, 4180, 4220) yield exactly
the edited values, not the originals, even though the edited levels break
the 2:1 rule. -/
theorem edit_decision_replaces_parameters :
    (∀ (orig : OrderArgs) (e s t l : ℚ) (tick : Tick),
      (resolve_edit orig e s t l).entry_price = e ∧
      (resolve_edit orig e s t l).sl_price = s ∧
      (resolve_edit orig e s t l).tp_price = t ∧
      (resolve_edit orig e s t l).lot_size = l ∧
      (resolve_edit orig e s t l).direction = orig.direction ∧
      (submit_order (resolve_edit orig e s t l) tick).sl = s ∧
      (submit_order (resolve_edit orig e s t l) tick).tp = t ∧
      (submit_order (resolve_edit orig e s t l) tick).volume = l) ∧
    ((resolve_edit ⟨.buy, 4190, 4178, 4214, 1/100, "7MS Strategy"⟩ 4192 4180 4220 (1/100)).entry_price = 4192 ∧
     (resolve_edit ⟨.buy, 4190, 4178, 4214, 1/100, "7MS Strategy"⟩ 4192 4180 4220 (1/100)).sl_price = 4180 ∧
     (resolve_edit ⟨.buy, 4190, 4178, 4214, 1/100, "7MS Strategy"⟩ 4192 4180 4220 (1/100)).tp_price = 4220 ∧
     (resolve_edit ⟨.buy, 4190, 4178, 4214, 1/100, "7MS Strategy"⟩ 4192 4180 4220 (1/100)).entry_price ≠ 4190 ∧
     (resolve_edit ⟨.buy, 4190, 4178, 4214, 1/100, "7MS Strategy"⟩ 4192 4180 4220 (1/100)).sl_price ≠ 4178 ∧
     (resolve_edit ⟨.buy, 4190, 4178, 4214, 1/100, "7MS Strategy"⟩ 4192 4180 4220 (1/100)).tp_price ≠ 4214 ∧
     (resolve_edit ⟨.buy, 4190, 4178, 4214, 1/100, "7MS Strategy"⟩ 4192 4180 4220 (1/100)).tp_price -
       (resolve_edit ⟨.buy, 4190, 4178, 4214, 1/100, "7MS Strategy"⟩ 4192 4180 4220 (1/100)).entry_price ≠
       2 * ((resolve_edit ⟨.buy, 4190, 4178, 4214, 1/100, "7MS Strategy"⟩ 4192 4180 4220 (1/100)).entry_price -
         (resolve_edit ⟨.buy, 4190, 4178, 4214, 1/100, "7MS Strategy"⟩ 4192 4180 4220 (1/100)).sl_price)) := by
  constructor
  · intro orig e s t l tick
    simp [resolve_edit, submit_order, send_order]
  · refine ⟨rfl, rfl, rfl, ?_, ?_, ?_, ?_⟩ <;> decide

/-! ## Membership lemmas for the order-block detector -/

lemma ob_mem_elim {tf : String} {dirF : ObDirection} {df : List Candle}
    {ob : OrderBlock}
    (h : ob ∈ (identify_order_blocks tf dirF df).order_blocks) :
    ∃ i, 2 ≤ i ∧ i < df.length ∧
      (ob ∈ bullishObAt tf df (last_close df) i ∨
       ob ∈ bearishObAt tf df (last_close df) i) := by
  simp only [identify_order_blocks] at h
  have h2 := mem_of_mem_takeLast h
  rw [List.mem_flatMap] at h2
  obtain ⟨i, hi, hmem⟩ := h2
  rw [List.mem_range'_1] at hi
  refine ⟨i, hi.1, by omega, ?_⟩
  rw [obAt, List.mem_append] at hmem
  rcases hmem with hL | hR
  · left
    split at hL
    · exact hL
    · simp at hL
  · right
    split at hR
    · exact hR
    · simp at hR

lemma bullishObAt_fields {tf : String} {df : List Candle} {lc : ℚ} {i : ℕ}
    {ob : OrderBlock} (h : ob ∈ bullishObAt tf df lc i) :
    ob.ob_type = "bullish_ob" ∧
    ob.zone_low = (candleAt df (i - 2)).low ∧
    ob.zone_high = (candleAt df (i - 2)).high ∧
    0 < ob.gap_size ∧
    ob.current_price_distance = lc - (candleAt df (i - 2)).high := by
  simp only [bullishObAt] at h
  split_ifs at h <;>
    first
      | (rw [List.mem_singleton] at h
         subst h
         exact ⟨rfl, rfl, rfl, by assumption, rfl⟩)
      | simp at h

lemma bearishObAt_fields {tf : String} {df : List Candle} {lc : ℚ} {i : ℕ}
    {ob : OrderBlock} (h : ob ∈ bearishObAt tf df lc i) :
    ob.ob_type = "bearish_ob" ∧
    ob.zone_low = (candleAt df (i - 2)).low ∧
    ob.zone_high = (candleAt df (i - 2)).high ∧
    0 < ob.gap_size ∧
    ob.current_price_distance = (candleAt df (i - 2)).low - lc := by
  simp only [bearishObAt] at h
  split_ifs at h <;>
    first
      | (rw [List.mem_singleton] at h
         subst h
         exact ⟨rfl, rfl, rfl, by assumption, rfl⟩)
      | simp at h

/-! ## C5: the sign convention of `current_price_distance` -/

/-- C5 (counterexample).  On a series whose one detected block is bearish
with zone low 100 and last close 99.8, the reported distance is 0.2 —
`zone_low - last_close` — not `last_close - zone_low` = −0.2 as the claim
states for bearish blocks. -/
theorem bearish_distance_sign_cex :
    ∃ ob ∈ (identify_order_blocks "4H" .both bearish_distance_series).order_blocks,
      ob.ob_type = "bearish_ob" ∧
      ob.current_price_distance ≠
        last_close bearish_distance_series - ob.zone_low := by
  decide

/-- C5 (amended).  Every reported order block's
`current_price_distance` is the last close minus the zone high for a
bullish block, but the zone low minus the last close for a bearish block
(the sign is flipped on the bearish side relative to the claim). -/
theorem ob_distance_signed :
    ∀ (tf : String) (dirF : ObDirection) (df : List Candle),
      (identify_order_blocks tf dirF df).order_blocks.Forall
        (fun ob =>
          (ob.ob_type = "bullish_ob" →
            ob.current_price_distance = last_close df - ob.zone_high) ∧
          (ob.ob_type = "bearish_ob" →
            ob.current_price_distance = ob.zone_low - last_close df)) := by
  intro tf dirF df
  rw [List.forall_iff_forall_mem]
  intro ob hob
  obtain ⟨i, h2i, hiL, hcase⟩ := ob_mem_elim hob
  rcases hcase with hb | hb
  · obtain ⟨htype, hzl, hzh, _, hdist⟩ := bullishObAt_fields hb
    constructor
    · intro _
      rw [hdist, hzh]
    · intro hbear
      rw [htype] at hbear
      exact absurd hbear (by decide)
  · obtain ⟨htype, hzl, hzh, _, hdist⟩ := bearishObAt_fields hb
    constructor
    · intro hbull
      rw [htype] at hbull
      exact absurd hbull (by decide)
    · intro _
      rw [hdist, hzl]

/-! ## C6: zone and gap invariants of reported order blocks -/

/-- C6 (counterexample).  A series whose anchor candle is zero-range
(high = low = 100) still produces a detected bullish block, whose zone
then has `zone_low = zone_high = 100`: the strict invariant fails on such
input. -/
theorem ob_zone_degenerate_cex :
    ∃ ob ∈ (identify_order_blocks "4H" .both degenerate_ob_series).order_blocks,
      ¬ ob.zone_low < ob.zone_high := by
  decide

/-- C6 (amended).  On every series whose candles all have a positive
range (low < high — true of any well-formed OHLC candle with distinct
extremes), every reported order block satisfies
`zone_low < zone_high`, and `gap_size > 0` holds by construction. -/
theorem ob_zone_invariant :
    ∀ (tf : String) (dirF : ObDirection) (df : List Candle),
      df.Forall (fun c => c.low < c.high) →
      (identify_order_blocks tf dirF df).order_blocks.Forall
        (fun ob => ob.zone_low < ob.zone_high ∧ 0 < ob.gap_size) := by
  intro tf dirF df hlh
  rw [List.forall_iff_forall_mem] at hlh ⊢
  intro ob hob
  obtain ⟨i, h2i, hiL, hcase⟩ := ob_mem_elim hob
  have hc1 : candleAt df (i - 2) ∈ df := candleAt_mem (by omega)
  have hlow := hlh _ hc1
  rcases hcase with hb | hb
  · obtain ⟨_, hzl, hzh, hgap, _⟩ := bullishObAt_fields hb
    rw [hzl, hzh]
    exact ⟨hlow, hgap⟩
  · obtain ⟨_, hzl, hzh, hgap, _⟩ := bearishObAt_fields hb
    rw [hzl, hzh]
    exact ⟨hlow, hgap⟩

/-- C6 (witness for the amended theorem): Scenario A's three
positive-range candles, yielding one bullish block with zone [99, 101]. -/
theorem ob_zone_invariant_witness :
    scenario_a_series.Forall (fun c => c.low < c.high) ∧
    (identify_order_blocks "4H" .both scenario_a_series).order_blocks.Forall
      (fun ob => ob.zone_low < ob.zone_high ∧ 0 < ob.gap_size) :=
  ⟨by decide, ob_zone_invariant "4H" .both scenario_a_series (by decide)⟩

/-! ## C9: zero-range candles get body ratio 0 -/

/-- C9.  The two-candle-rejection body-ratio computation is total: a
zero-range candle (high = low) yields `body_ratio` 0 via the
`else 0` branch, never a division fault. -/
theorem zero_range_body_ratio_zero :
    ∀ c : Candle, c.high = c.low → body_ratio c = 0 := by
  intro c h
  simp [body_ratio, h]

/-- C9 (witness): a concrete candle with high = low = 3. -/
theorem zero_range_body_ratio_zero_witness :
    (⟨0, 4, 3, 3, 5⟩ : Candle).high = (⟨0, 4, 3, 3, 5⟩ : Candle).low ∧
    body_ratio ⟨0, 4, 3, 3, 5⟩ = 0 :=
  ⟨rfl, zero_range_body_ratio_zero ⟨0, 4, 3, 3, 5⟩ rfl⟩

/-! ## Membership lemmas for the liquidity-sweep detector -/

lemma sweep_mem_elim {df : List Candle} {s : LiquiditySweep}
    (h : s ∈ (detect_liquidity_sweep df).recent_sweeps) :
    ∃ i, 5 ≤ i ∧ i + 2 < df.length ∧ s ∈ sweepsAt df i := by
  simp only [detect_liquidity_sweep] at h
  have h2 := mem_of_mem_takeLast h
  rw [List.mem_flatMap] at h2
  obtain ⟨i, hi, hmem⟩ := h2
  rw [List.mem_range'_1] at hi
  exact ⟨i, hi.1, by omega, hmem⟩

lemma sweepsAt_times {df : List Candle} {i : ℕ} {s : LiquiditySweep}
    (h : s ∈ sweepsAt df i) :
    s.sweep_time = (candleAt df i).time ∧
    s.confirmation_candle = (candleAt df (i + 1)).time := by
  simp only [sweepsAt] at h
  rw [List.mem_append] at h
  rcases h with h | h
  · rw [List.mem_append] at h
    rcases h with h | h <;>
      (split_ifs at h <;>
        first
          | (rw [List.mem_singleton] at h
             subst h
             exact ⟨rfl, rfl⟩)
          | simp at h)
  · split_ifs at h <;>
      first
        | (rw [List.mem_singleton] at h
           subst h
           exact ⟨rfl, rfl⟩)
        | simp at h

/-! ## C7: every reported sweep has an in-bounds confirmation candle -/

/-- C7.  Every sweep reported by `detect_liquidity_sweep` arises at some
loop index `i` with `5 ≤ i ≤ len − 3` (the loop is
`range(5, len(df) - 2)`), its `sweep_time` is candle `i`'s timestamp and
its `confirmation_candle` is candle `i+1`'s timestamp; both `i + 1` and
even `i + 2` are strictly inside the series, so no sweep is produced
before its confirming candle exists. -/
theorem sweep_confirmation_in_bounds :
    ∀ df : List Candle,
      (detect_liquidity_sweep df).recent_sweeps.Forall
        (fun s => ∃ i, 5 ≤ i ∧ i + 1 < df.length ∧ i + 2 < df.length ∧
          s.sweep_time = (candleAt df i).time ∧
          s.confirmation_candle = (candleAt df (i + 1)).time) := by
  intro df
  rw [List.forall_iff_forall_mem]
  intro s hs
  obtain ⟨i, h5, hlen, hmem⟩ := sweep_mem_elim hs
  obtain ⟨ht, hc⟩ := sweepsAt_times hmem
  exact ⟨i, h5, by omega, hlen, ht, hc⟩

/-! ## Lemmas for the structure-shift locator -/

lemma mss_scan_le {df : List Candle} :
    ∀ (idxs : List ℕ) (rh L : ℚ) (t : ℕ),
      mss_scan df idxs rh = some (L, t) → rh ≤ L := by
  intro idxs
  induction idxs with
  | nil =>
      intro rh L t h
      simp [mss_scan] at h
  | cons i rest ih =>
      intro rh L t h
      simp only [mss_scan] at h
      split_ifs at h with hgt
      · rw [Option.some.injEq, Prod.mk.injEq] at h
        exact le_of_eq h.1
      · exact le_trans (le_max_left _ _) (ih _ _ _ h)

lemma find_mss_elim {df : List Candle} {r : MssReport}
    (h : find_mss_and_poi df = some r) :
    ∃ L t,
      mss_scan df
          (List.range' (lowest_index df + 1) (df.length - (lowest_index df + 1)))
          (candleAt df (lowest_index df)).high = some (L, t) ∧
      r.mss_level = L ∧
      r.zone_start = (candleAt df (lowest_index df)).low ∧
      r.pois_in_zone =
        (poi_list df (lowest_index df) (candleAt df (lowest_index df)).low L).length ∧
      r.pois =
        takeLast 5 (poi_list df (lowest_index df) (candleAt df (lowest_index df)).low L) := by
  simp only [find_mss_and_poi] at h
  split_ifs at h with hemp
  split at h
  · exact absurd h (by simp)
  · rename_i L t heq
    rw [Option.some.injEq] at h
    subst h
    exact ⟨L, t, heq, rfl, rfl, rfl, rfl⟩

/-! ## C8: the found shift level versus the zone-start extreme -/

/-- C8 (counterexample).  When the lowest candle is zero-range at 100,
the scan can fire with level 100 equal to the zone start: the strict
inequality of the claim fails. -/
theorem mss_level_at_zone_start_cex :
    ∃ r, find_mss_and_poi degenerate_mss_series = some r ∧
      ¬ r.zone_start < r.mss_level := by
  refine ⟨{ mss_level := 100, mss_time := 1, zone_start := 100, zone_end := 100,
            pois_in_zone := 0, pois := [], current_price := 100.4 }, ?_, ?_⟩ <;>
    decide

/-- C8 (amended).  Whenever `find_mss_and_poi` reports a shift, the
returned level is at least the lowest candle's high (the running extreme
only grows), so it is strictly greater than the zone-start extreme — the
lowest candle's low — provided that lowest candle has a positive range
(low < high); for a zero-range lowest candle the level can equal the zone
start. -/
theorem mss_level_above_zone_start :
    ∀ (df : List Candle) (r : MssReport), find_mss_and_poi df = some r →
      (candleAt df (lowest_index df)).low < (candleAt df (lowest_index df)).high →
      r.zone_start < r.mss_level := by
  intro df r h hlh
  obtain ⟨L, t, hscan, hlvl, hzs, _, _⟩ := find_mss_elim h
  have hle := mss_scan_le _ _ _ _ hscan
  rw [hlvl, hzs]
  exact lt_of_lt_of_le hlh hle

/-- C8 (witness for the amended theorem): a series whose lowest candle
spans 99.9..100.1 and whose next candle breaks above, giving level 100.1
strictly above zone start 99.9. -/
theorem mss_level_above_zone_start_witness :
    find_mss_and_poi positive_range_mss_series =
      some { mss_level := 100.1, mss_time := 1, zone_start := 99.9,
             zone_end := 100.1, pois_in_zone := 0, pois := [],
             current_price := 100.4 } ∧
    (candleAt positive_range_mss_series (lowest_index positive_range_mss_series)).low <
      (candleAt positive_range_mss_series (lowest_index positive_range_mss_series)).high ∧
    ({ mss_level := 100.1, mss_time := 1, zone_start := 99.9, zone_end := 100.1,
       pois_in_zone := 0, pois := [], current_price := 100.4 } : MssReport).zone_start <
      ({ mss_level := 100.1, mss_time := 1, zone_start := 99.9, zone_end := 100.1,
         pois_in_zone := 0, pois := [], current_price := 100.4 } : MssReport).mss_level :=
  ⟨by decide, by decide,
   mss_level_above_zone_start positive_range_mss_series _ (by decide) (by decide)⟩

/-! ## C10: counts versus truncated lists -/

/-- C10.  Each detector reports the full detection count while returning
a most-recent suffix: `identify_order_blocks` returns at most the last 10
blocks alongside `order_blocks_found`, `detect_liquidity_sweep` at most
the last 5 sweeps alongside `sweeps_detected`, and `find_mss_and_poi` at
most the last 5 POIs alongside `pois_in_zone`; each reported list's
length is bounded by its truncation bound and by the reported count. -/
theorem reported_lists_truncated :
    ∀ (tf : String) (dirF : ObDirection) (df1 df2 df3 : List Candle),
      ((identify_order_blocks tf dirF df1).order_blocks.length ≤ 10 ∧
       (identify_order_blocks tf dirF df1).order_blocks.length ≤
         (identify_order_blocks tf dirF df1).order_blocks_found) ∧
      ((detect_liquidity_sweep df2).recent_sweeps.length ≤ 5 ∧
       (detect_liquidity_sweep df2).recent_sweeps.length ≤
         (detect_liquidity_sweep df2).sweeps_detected) ∧
      (∀ r : MssReport, find_mss_and_poi df3 = some r →
        r.pois.length ≤ 5 ∧ r.pois.length ≤ r.pois_in_zone) := by
  intro tf dirF df1 df2 df3
  refine ⟨⟨?_, ?_⟩, ⟨?_, ?_⟩, ?_⟩
  · exact length_takeLast_le 10 _
  · exact length_takeLast_le_length 10 _
  · exact length_takeLast_le 5 _
  · exact length_takeLast_le_length 5 _
  · intro r hr
    obtain ⟨L, t, _, _, _, hcount, hpois⟩ := find_mss_elim hr
    rw [hpois, hcount]
    exact ⟨length_takeLast_le 5 _, length_takeLast_le_length 5 _⟩

end SevenMS
